import Mathlib

/-!
Verification development for the Kids-Video repository.

The repository is a Python pipeline that turns generative-AI output into a
children's story video.  The definitions below are a shallow embedding of the
parts of the code the claims are about:

* `collect_complete_story` (media/utils.py) - regex-based story segmentation;
* `retry_api_call` (ai/prompt_generator.py) - retry loop with weighted failures;
* `retry_story_generation` (ai/story_generator.py) - outer pipeline retry;
* `default_seo_metadata` (ai/seo.py) - deterministic metadata fallback;
* `create_video_from_images_and_audio` (media/video.py) - per-image timing;
* the `image_XX.png` file naming of ai/story_generator.py.

Python regular expressions are embedded by a small backtracking matcher over
exactly the constructs the repository's patterns use (literals, character
classes, greedy and lazy stars over a class, sequencing, ordered alternation,
optional groups, the `^` anchor without MULTILINE, and capturing groups).
Characters are treated at code-point level; the Python character classes
`\s`, `\d`, `[a-zA-Z0-9]` and `str.lower`/`str.strip` are modelled by their
ASCII behaviour, which is exact for the inputs the repository manipulates.
-/

namespace KidsVideo

/-- Python whitespace (`\s`, `str.strip()`, `str.split()`), ASCII part:
space, tab, newline, carriage return, vertical tab, form feed. -/
def pyIsSpace (c : Char) : Bool :=
  c = ' ' || c = '\t' || c = '\n' || c = '\r' || c = Char.ofNat 11 || c = Char.ofNat 12

/-- Python `\d`, ASCII part. -/
def pyIsDigit (c : Char) : Bool := '0' ≤ c && c ≤ '9'

/-- The character class `[a-zA-Z0-9]` of pattern 1 in media/utils.py. -/
def pyIsAlnum (c : Char) : Bool :=
  ('a' ≤ c && c ≤ 'z') || ('A' ≤ c && c ≤ 'Z') || ('0' ≤ c && c ≤ '9')

/-- ASCII lowercasing of one character (Python `str.lower` on ASCII input). -/
def pyToLower (c : Char) : Char :=
  if 'A' ≤ c && c ≤ 'Z' then Char.ofNat (c.toNat + 32) else c

/-- `str.lower()` on the character list of a string. -/
def lowerL (s : List Char) : List Char := s.map pyToLower

/-- `str.strip()`: drop Python whitespace from both ends. -/
def stripL (s : List Char) : List Char :=
  ((s.dropWhile pyIsSpace).reverse.dropWhile pyIsSpace).reverse

/-- Helper of `pySplitWs`: accumulate the current word (reversed) while
scanning. -/
def pySplitWsGo : List Char → List Char → List (List Char)
  | [], acc => if acc.isEmpty then [] else [acc.reverse]
  | c :: s, acc =>
    if pyIsSpace c then
      if acc.isEmpty then pySplitWsGo s [] else acc.reverse :: pySplitWsGo s []
    else pySplitWsGo s (c :: acc)

/-- `str.split()` with no separator: split on runs of whitespace, dropping
empty pieces.  Used by the `len(segment.split()) < 5` word count check. -/
def pySplitWs (s : List Char) : List (List Char) := pySplitWsGo s []

/-- Substring containment, `needle in haystack` in Python. -/
def containsSub (needle : List Char) : List Char → Bool
  | [] => needle.isEmpty
  | c :: s => needle.isPrefixOf (c :: s) || containsSub needle s

/-- Worker of `removeAll`: scan left to right; a positive skip counter
means we are inside an occurrence just found and its remaining characters
are dropped without emitting or re-matching. -/
def removeAllGo (needle : List Char) : List Char → Nat → List Char
  | [], _ => []
  | _ :: s, k + 1 => removeAllGo needle s k
  | c :: s, 0 =>
    if needle.isPrefixOf (c :: s) then removeAllGo needle s (needle.length - 1)
    else c :: removeAllGo needle s 0

/-- `str.replace(old, "")` for a non-empty `old`: remove every
non-overlapping occurrence, scanning left to right.  Used for
`segment.replace("```", "")` in media/utils.py (an empty needle removes
nothing). -/
def removeAll (needle : List Char) (s : List Char) : List Char :=
  match needle with
  | [] => s
  | _ :: _ => removeAllGo needle s 0

/-! ### A backtracking regex matcher

Exactly the subset of Python `re` syntax used by the repository's patterns.
Alternation is ordered (left branch preferred), `star` is greedy, `lazyStar`
is non-greedy, both range over a single character class as in all the
repository's quantifiers.  `bos` is `^` without `re.MULTILINE`: it matches
only at absolute position 0 of the subject string. -/
inductive RE where
  | lit : List Char → RE
  | cls : (Char → Bool) → RE
  | star : (Char → Bool) → RE
  | lazyStar : (Char → Bool) → RE
  | seq : RE → RE → RE
  | alt : RE → RE → RE
  | opt : RE → RE
  | bos : RE
  | group : Nat → RE → RE

/-- `X+` is `X` followed by `X*`. -/
def RE.plus (p : Char → Bool) : RE := .seq (.cls p) (.star p)

/-- Matcher state: absolute position in the subject, the remaining suffix,
and captured groups collected so far. -/
structure MState where
  pos : Nat
  rest : List Char
  caps : List (Nat × List Char)

/-- Consume a literal, character by character. -/
def litK (k : MState → Option MState) : List Char → Nat → List Char →
    List (Nat × List Char) → Option MState
  | [], pos, rest, caps => k ⟨pos, rest, caps⟩
  | c :: l, pos, rest, caps =>
    match rest with
    | [] => none
    | d :: rest2 => if d = c then litK k l (pos + 1) rest2 caps else none

/-- Greedy star over a character class: consume as much as possible first,
backtracking into the continuation `k`. -/
def starGK (p : Char → Bool) (k : MState → Option MState) (pos : Nat)
    (caps : List (Nat × List Char)) : List Char → Option MState
  | [] => k ⟨pos, [], caps⟩
  | c :: s =>
    if p c then starGK p k (pos + 1) caps s <|> k ⟨pos, c :: s, caps⟩
    else k ⟨pos, c :: s, caps⟩

/-- Lazy star over a character class: try the continuation first, consuming
a character only when it fails. -/
def lazyK (p : Char → Bool) (k : MState → Option MState) (pos : Nat)
    (caps : List (Nat × List Char)) : List Char → Option MState
  | [] => k ⟨pos, [], caps⟩
  | c :: s =>
    k ⟨pos, c :: s, caps⟩ <|> (if p c then lazyK p k (pos + 1) caps s else none)

/-- The backtracking matcher in continuation-passing style.  `mtch r st k`
tries every way of matching `r` from `st`, in Python's preference order, and
hands each resulting state to `k` until one succeeds. -/
def mtch : RE → MState → (MState → Option MState) → Option MState
  | .lit l, st, k => litK k l st.pos st.rest st.caps
  | .cls p, st, k =>
    match st.rest with
    | [] => none
    | c :: s => if p c then k ⟨st.pos + 1, s, st.caps⟩ else none
  | .star p, st, k => starGK p k st.pos st.caps st.rest
  | .lazyStar p, st, k => lazyK p k st.pos st.caps st.rest
  | .seq a b, st, k => mtch a st (fun st2 => mtch b st2 k)
  | .alt a b, st, k => mtch a st k <|> mtch b st k
  | .opt a, st, k => mtch a st k <|> k st
  | .bos, st, k => if st.pos = 0 then k st else none
  | .group n a, st, k =>
    mtch a st (fun st2 => k ⟨st2.pos, st2.rest, (n, st.rest.take (st2.pos - st.pos)) :: st2.caps⟩)

/-- Leftmost search: try to match at each position of the suffix `suf`
(whose first character sits at absolute position `absPos`), scanning left to
right.  Returns the offset of the match within `suf` and the final state. -/
def searchGo (r : RE) : Nat → List Char → Nat → Option (Nat × MState)
  | 0, _, _ => none
  | fuel + 1, suf, absPos =>
    match mtch r ⟨absPos, suf, []⟩ some with
    | some st => some (0, st)
    | none =>
      match suf with
      | [] => none
      | _ :: tl => (searchGo r fuel tl (absPos + 1)).map (fun x => (x.1 + 1, x.2))

/-- Leftmost match of `r` in the suffix `suf` starting at absolute position
`absPos`. -/
def searchAt (r : RE) (suf : List Char) (absPos : Nat) : Option (Nat × MState) :=
  searchGo r (suf.length + 1) suf absPos

/-- `re.search(r, s)`: captured groups of the leftmost match, if any. -/
def reSearch (r : RE) (s : List Char) : Option (List (Nat × List Char)) :=
  (searchAt r s 0).map (fun x => x.2.caps)

/-- Worker of `reSplit`: cut the subject at each non-overlapping leftmost
match, resuming the scan at the end of each match (absolute positions are
threaded so that `^` only fires at position 0, as in Python without
MULTILINE).  None of the repository's patterns can match the empty string;
the zero-width guard only serves termination. -/
def splitGo (r : RE) : Nat → List Char → Nat → List (List Char)
  | 0, suf, _ => [suf]
  | fuel + 1, suf, absPos =>
    match searchAt r suf absPos with
    | none => [suf]
    | some (i, st) =>
      let matchLen := st.pos - (absPos + i)
      if matchLen = 0 then [suf]
      else suf.take i :: splitGo r fuel (suf.drop (i + matchLen)) (absPos + i + matchLen)

/-- `re.split(r, s)` for the repository's patterns (none of which contain a
capturing group, so Python's group-inclusion rule does not apply). -/
def reSplit (r : RE) (s : List Char) : List (List Char) :=
  splitGo r (s.length + 1) s 0

/-- `re.sub(r, "", s)`: with an empty replacement, substitution is exactly
the concatenation of the split pieces. -/
def reSubEmpty (r : RE) (s : List Char) : List Char :=
  (reSplit r s).foldr (· ++ ·) []

/-! ### media/utils.py : collect_complete_story -/

/-- Pattern 1 of `segment_patterns`:
`(?:Segment|SEGMENT|Scene|SCENE)\s+\d+(?:\s*[-:][^a-zA-Z0-9]*\s*[^"\x27]+)?`
(the last class excludes the double and single quote characters). -/
def segment_pattern1 : RE :=
  .seq (.alt (.lit "Segment".data)
        (.alt (.lit "SEGMENT".data) (.alt (.lit "Scene".data) (.lit "SCENE".data))))
    (.seq (.plus pyIsSpace)
      (.seq (.plus pyIsDigit)
        (.opt (.seq (.star pyIsSpace)
          (.seq (.cls (fun c => c = '-' || c = ':'))
            (.seq (.star (fun c => !pyIsAlnum c))
              (.seq (.star pyIsSpace)
                (.plus (fun c => !(c = '"' || c = Char.ofNat 39))))))))))

/-- Pattern 2 of `segment_patterns`:
`(?:^|\n)\s*(?:\d+[\.\)\]]|\[\d+\])\s+`. -/
def segment_pattern2 : RE :=
  .seq (.alt .bos (.lit ['\n']))
    (.seq (.star pyIsSpace)
      (.seq (.alt (.seq (.plus pyIsDigit) (.cls (fun c => c = '.' || c = ')' || c = ']')))
                  (.seq (.lit ['[']) (.seq (.plus pyIsDigit) (.lit [']']))))
        (.plus pyIsSpace)))

/-- Pattern 3 of `segment_patterns` (also the inline image-label pattern of
the cleanup loop): `\[(?:Image|IMG|Picture|PIC)\s*\d+[^\]]*\]`. -/
def segment_pattern3 : RE :=
  .seq (.lit ['['])
    (.seq (.alt (.lit "Image".data)
          (.alt (.lit "IMG".data) (.alt (.lit "Picture".data) (.lit "PIC".data))))
      (.seq (.star pyIsSpace)
        (.seq (.plus pyIsDigit)
          (.seq (.star (fun c => !(c = ']'))) (.lit [']'])))))

/-- The `segment_patterns` list, in the order the code tries them. -/
def segment_patterns : List RE := [segment_pattern1, segment_pattern2, segment_pattern3]

/-- The paragraph fallback pattern `\n\s*\n`. -/
def blank_line_pattern : RE :=
  .seq (.lit ['\n']) (.seq (.star pyIsSpace) (.lit ['\n']))

/-- The bracket-notation pattern `\[(.*?)\]` of the cleanup loop
(`.` does not match a newline: no DOTALL flag). -/
def bracket_pattern : RE :=
  .seq (.lit ['[']) (.seq (.group 1 (.lazyStar (fun c => !(c = '\n')))) (.lit [']']))

/-- `[s.strip() for s in re.split(pattern, t) if s.strip()]` - split on a
pattern, strip each piece, keep the non-empty ones. -/
def split_and_strip (p : RE) (t : List Char) : List (List Char) :=
  (reSplit p t).filterMap (fun s => let s2 := stripL s; if s2.isEmpty then none else some s2)

/-- The pattern loop of `collect_complete_story`: the first pattern whose
split (after stripping and dropping empties) yields at least 3 segments. -/
def first_valid_segmentation : List RE → List Char → Option (List (List Char))
  | [], _ => none
  | p :: ps, t =>
    let segs := split_and_strip p t
    if 3 ≤ segs.length then some segs else first_valid_segmentation ps t

/-- One iteration of the final cleanup loop of `collect_complete_story`:
skip segments that look like non-story content, then strip markdown
backticks and bracket annotations; drop the segment if nothing remains. -/
def clean_story_segment (segment : List Char) : Option (List Char) :=
  if (pySplitWs segment).length < 5
      || "Image generation:".data.isPrefixOf segment
      || "Note:".data.isPrefixOf segment
      || containsSub "end of story".data (lowerL segment)
      || containsSub "```".data segment then
    none
  else
    let c1 := stripL (removeAll "```".data segment)
    let c2 := reSubEmpty segment_pattern3 c1
    let c3 := reSubEmpty bracket_pattern c2
    if c3.isEmpty then none else some c3

/-- The segment list computed by `collect_complete_story`: strip the raw
text, choose a segmentation (patterns first, blank-line paragraphs as
fallback), then run the cleanup loop. -/
def story_segments_of (raw : List Char) : List (List Char) :=
  let cleaned_text := stripL raw
  let segments :=
    (first_valid_segmentation segment_patterns cleaned_text).getD
      (split_and_strip blank_line_pattern cleaned_text)
  segments.filterMap clean_story_segment

/-- `collect_complete_story(raw_text, return_segments=True)` as a list of
strings. -/
def story_segments (raw_text : String) : List String :=
  (story_segments_of raw_text.data).map (fun l => ⟨l⟩)

/-- Result of `collect_complete_story`: a segment list when
`return_segments` is true, a single text otherwise. -/
inductive StoryOutput where
  | segments : List String → StoryOutput
  | text : String → StoryOutput
deriving DecidableEq

/-- `collect_complete_story` of media/utils.py.  In segment mode the cleaned
list is returned directly; in text mode the segments are joined with blank
lines and, if the join came out shorter than 100 characters while the
stripped input was longer than 100, the stripped input is returned
instead. -/
def collect_complete_story (raw_text : String) (return_segments : Bool) : StoryOutput :=
  let cleaned_text := stripL raw_text.data
  let segs := story_segments_of raw_text.data
  if return_segments then .segments (segs.map (fun l => ⟨l⟩))
  else
    let full_story := List.intercalate "\n\n".data segs
    if full_story.length < 100 && 100 < cleaned_text.length then .text ⟨cleaned_text⟩
    else .text ⟨full_story⟩

/-! ### config.py -/

/-- `MAX_CONSECUTIVE_FAILURES` of config.py (as an integer, since the
retry wrapper compares it with a counter that only grows). -/
def MAX_CONSECUTIVE_FAILURES : Int := 1000

/-- `MIN_STORY_SEGMENTS` of config.py. -/
def MIN_STORY_SEGMENTS : Nat := 6

/-! ### ai/prompt_generator.py : retry_api_call

The wrapped operation is modelled as a map from the invocation index to an
outcome: either a result or one of the exception classes the wrapper
distinguishes.  Sleeping and backoff-delay bookkeeping have no effect on
the control flow and are not modelled.

The first three except clauses of `retry_api_call` name classes under
`custom_genai`, a name that is never imported in ai/prompt_generator.py
(only ai/seo.py imports it).  CPython evaluates except-clause expressions
at exception time, in order, so the moment the wrapped operation raises
anything the evaluation of the first clause raises `NameError`, which
replaces the original exception and escapes the function.  Two models are
therefore given: `retry_go`/`retry_api_call` embed the handler semantics
the function documents and visibly intends (its docstring promises the
result "or None after max retries", and the loop weights, sleeps and logs
retries), while `retry_api_call_actual` embeds what the interpreter
actually does. -/

/-- The exception classes the except clauses of `retry_api_call` name:
`ResourceExhaustedError`, `InternalServerError`, `InvalidArgumentError`
(with its message), and the catch-all `except Exception`. -/
inductive ApiError where
  | resourceExhausted
  | internalServer
  | invalidArgument (msg : String)
  | unexpected
deriving DecidableEq

/-- Outcome of one invocation of the wrapped operation. -/
inductive ApiOutcome (α : Type) where
  | ok (a : α)
  | err (e : ApiError)

/-- The extra amount added to the failure counter before the common `+= 1`:
10 for an `InvalidArgumentError` whose message does not contain "safety"
(case-insensitively), 0 for every other caught exception. -/
def failure_weight (e : ApiError) : Int :=
  match e with
  | .invalidArgument msg => if containsSub "safety".data (lowerL msg.data) then 0 else 10
  | _ => 0

theorem failure_weight_nonneg (e : ApiError) : 0 ≤ failure_weight e := by
  cases e with
  | invalidArgument msg =>
    simp only [failure_weight]
    split <;> omega
  | _ => simp [failure_weight]

/-- The `while failures < max_consecutive_failures` loop of
`retry_api_call` under the intended (documented) handler semantics, i.e.
as if the except clauses bound their classes correctly.  `calls` counts
invocations of the wrapped operation.  The loop body's early `return None`
(when the incremented counter reaches the budget) and the loop's
fall-through `return None` coincide with the guard failing on the next
iteration. -/
def retry_go {α : Type} (op : Nat → ApiOutcome α) (maxF : Int) (calls : Nat)
    (failures : Int) : Option α × Nat :=
  if failures < maxF then
    match op calls with
    | .ok a => (some a, calls + 1)
    | .err e => retry_go op maxF (calls + 1) (failures + failure_weight e + 1)
  else (none, calls)
termination_by (maxF - failures).toNat
decreasing_by
  have hw := failure_weight_nonneg e
  omega

/-- `retry_api_call` of ai/prompt_generator.py under the intended handler
semantics: the value it returns. -/
def retry_api_call {α : Type} (op : Nat → ApiOutcome α) (maxF : Int) : Option α :=
  (retry_go op maxF 0 0).fst

/-- Number of times `retry_api_call` invokes the wrapped operation under
the intended handler semantics. -/
def retry_api_call_count {α : Type} (op : Nat → ApiOutcome α) (maxF : Int) : Nat :=
  (retry_go op maxF 0 0).snd

/-- Termination of a Python call: a normal return value, or an uncaught
exception escaping the function, identified by its class name. -/
inductive PyResult (α : Type) where
  | ret (a : Option α)
  | raised (exn : String)
deriving DecidableEq

/-- The behaviour `retry_api_call` actually exhibits, paired with the
number of invocations of the wrapped operation.  With a non-positive
budget the loop guard fails at once and `None` is returned without any
invocation.  Otherwise the operation is invoked; if it returns, its result
is returned.  If it raises anything at all, CPython evaluates the first
except clause `custom_genai.genai_errors.ResourceExhaustedError`, and
since `custom_genai` is not defined in ai/prompt_generator.py that
evaluation raises `NameError`, which escapes the function: no iteration of
the loop can ever complete with a caught exception, so no second
invocation is possible. -/
def retry_api_call_actual {α : Type} (op : Nat → ApiOutcome α) (maxF : Int) :
    PyResult α × Nat :=
  if 0 < maxF then
    match op 0 with
    | .ok a => (.ret (some a), 1)
    | .err _ => (.raised "NameError", 1)
  else (.ret none, 0)

/-! ### ai/story_generator.py : retry_story_generation -/

/-- The fields of the result dictionary of `generate` that
`retry_story_generation` inspects. -/
structure GenResult where
  story_text : String
  image_files : List String

/-- The success check of `retry_story_generation`: a present result whose
story text cleans into at least `MIN_STORY_SEGMENTS` segments and whose
image list has at least `MIN_STORY_SEGMENTS` entries.  `none` covers both
a `None`/incomplete result and an exception raised by `generate`. -/
def generation_successful (r : Option GenResult) : Bool :=
  match r with
  | none => false
  | some res =>
    decide (MIN_STORY_SEGMENTS ≤ (story_segments res.story_text).length) &&
    decide (MIN_STORY_SEGMENTS ≤ res.image_files.length)

/-- The retry loop of `retry_story_generation`: `gen` maps the attempt
index to that attempt's outcome (each attempt re-runs the whole pipeline
from the first step).  Returns the first successful result together with
the number of attempts performed; after `max_retries` unsuccessful
attempts the result is `none`. -/
def retry_story_go (gen : Nat → Option GenResult) (max_retries retry_count : Nat) :
    Option GenResult × Nat :=
  if retry_count < max_retries then
    let r := gen retry_count
    if generation_successful r then (r, retry_count + 1)
    else retry_story_go gen max_retries (retry_count + 1)
  else (none, retry_count)
termination_by max_retries - retry_count

/-- `retry_story_generation` of ai/story_generator.py (`max_retries = 5`). -/
def retry_story_generation (gen : Nat → Option GenResult) : Option GenResult :=
  (retry_story_go gen 5 0).fst

/-- Number of generation attempts `retry_story_generation` performs. -/
def retry_story_attempts (gen : Nat → Option GenResult) : Nat :=
  (retry_story_go gen 5 0).snd

/-! ### ai/story_generator.py : image file naming -/

/-- Python `f"{n:02d}"`: decimal digits of `n`, left-padded with zeros to
width 2. -/
def two_digit (n : Nat) : String :=
  if n < 10 then "0" ++ toString n else toString n

/-- The file name `f"image_{image_count:02d}.png"` used for each inline
image payload saved by `attempt_stream_generation` and
`attempt_non_stream_generation`. -/
def image_file_name (image_count : Nat) : String :=
  "image_" ++ two_digit image_count ++ ".png"

/-- `os.path.join(temp_dir, image_file_name)` on a POSIX path without a
trailing separator. -/
def image_file_path (temp_dir : String) (image_count : Nat) : String :=
  temp_dir ++ "/" ++ image_file_name image_count

/-- The image paths produced by a run that saved `k` images: counts 1..k,
all in the same temporary directory, in generation order. -/
def generated_image_files (temp_dir : String) (k : Nat) : List String :=
  (List.range k).map (fun i => image_file_path temp_dir (i + 1))

/-! ### media/video.py : create_video_from_images_and_audio timing

The audio duration probed by ffprobe and the derived timings are Python
floats; they are modelled by exact rationals. -/

/-- `time_per_image = audio_duration / total_images`. -/
def time_per_image (audio_duration : ℚ) (total_images : Nat) : ℚ :=
  audio_duration / total_images

/-- The numeric parameters written for one image by the filter-script loop:
`setpts=PTS-STARTPTS+{i*time_per_image}/TB`, `trim=duration={time_per_image}`,
`fade=t=out:st={time_per_image-0.5}`. -/
structure FilterEntry where
  setpts_shift : ℚ
  trim_duration : ℚ
  fadeout_start : ℚ
deriving DecidableEq

/-- The filter-script entries for `total_images` images
(`for i in range(total_images)`). -/
def filter_script_entries (audio_duration : ℚ) (total_images : Nat) : List FilterEntry :=
  (List.range total_images).map (fun i : Nat =>
    { setpts_shift := (i : ℚ) * time_per_image audio_duration total_images
      trim_duration := time_per_image audio_duration total_images
      fadeout_start := time_per_image audio_duration total_images - 1/2 })

/-! ### ai/seo.py : default_seo_metadata -/

/-- The apostrophe character (written by code point). -/
def apos : Char := Char.ofNat 39

/-- The pattern of `default_seo_metadata` extracting character and setting:
`about\s+(.*?)\s+going\s+on\s+an\s+adventure\s+in\s+(.*?)(?:\s+in\s+a\s+3d|\.)`. -/
def char_setting_pattern : RE :=
  .seq (.lit "about".data)
    (.seq (.plus pyIsSpace)
      (.seq (.group 1 (.lazyStar (fun c => !(c = '\n'))))
        (.seq (.plus pyIsSpace)
          (.seq (.lit "going".data)
            (.seq (.plus pyIsSpace)
              (.seq (.lit "on".data)
                (.seq (.plus pyIsSpace)
                  (.seq (.lit "an".data)
                    (.seq (.plus pyIsSpace)
                      (.seq (.lit "adventure".data)
                        (.seq (.plus pyIsSpace)
                          (.seq (.lit "in".data)
                            (.seq (.plus pyIsSpace)
                              (.seq (.group 2 (.lazyStar (fun c => !(c = '\n'))))
                                (.alt (.seq (.plus pyIsSpace)
                                        (.seq (.lit "in".data)
                                          (.seq (.plus pyIsSpace)
                                            (.seq (.lit "a".data)
                                              (.seq (.plus pyIsSpace) (.lit "3d".data))))))
                                      (.lit ['.']))))))))))))))))

/-- Look up a captured group by number. -/
def capLookup (n : Nat) (caps : List (Nat × List Char)) : Option (List Char) :=
  (caps.find? (fun p => p.1 = n)).map (fun p => p.2)

/-- The metadata dictionary: title, description, tags. -/
structure SeoMetadata where
  title : String
  description : String
  tags : List String

/-- `story_text[:500] + "..." if len(story_text) > 500 else story_text`. -/
def story_preview_of (story_text : List Char) : List Char :=
  if 500 < story_text.length then story_text.take 500 ++ "...".data else story_text

/-- The character/setting extraction of `default_seo_metadata`: the
variables default to "an animal" and "an adventure" and are overwritten by
the match groups when `char_setting_pattern` matches `prompt_text` (on a
successful match both groups are always bound). -/
def seo_char_setting (prompt_text : String) : List Char × List Char :=
  match reSearch char_setting_pattern prompt_text.data with
  | some caps => ((capLookup 1 caps).getD "an animal".data,
                  (capLookup 2 caps).getD "an adventure".data)
  | none => ("an animal".data, "an adventure".data)

/-- The body of `default_seo_metadata` given the extracted character and
setting. -/
def default_seo_metadata_core (story_text : String) (character setting : List Char)
    (timestamp : String) : SeoMetadata :=
  let title : List Char :=
    ("Adventure of ".data ++ character ++ " in ".data ++ setting ++
      " | Children".data ++ [apos] ++ "s Story".data).take 60
  let story_preview := story_preview_of story_text.data
  let description : List Char :=
    "\n    Join ".data ++ character ++ " on an exciting adventure in ".data ++
      setting ++ "!\n    \n    ".data ++ story_preview ++
      ("\n    \n    This animated children".data ++ [apos] ++
        ("s story is perfect for bedtime reading, family story time, or " ++
         "whenever your child wants to explore magical worlds and learn " ++
         "valuable lessons. Watch as our character overcomes challenges and " ++
         "discovers new friends along the way.\n    \n    " ++
         "#ChildrensStory #Animation #KidsEntertainment\n    \n    " ++
         "Created: ").data) ++ timestamp.data ++ "\n    ".data
  { title := ⟨title⟩
    description := ⟨description⟩
    tags := [⟨"children".data ++ [apos] ++ "s story".data⟩,
             "kids animation", "bedtime story", "animated story",
             ⟨character⟩, ⟨setting⟩,
             "family friendly", "kids entertainment", "story time",
             "animated adventure", "educational content", "preschool",
             "moral story", "3D animation", "storybook"] }

/-- `default_seo_metadata` of ai/seo.py.  `timestamp` stands for
`datetime.datetime.now().strftime("%Y-%m-%d")`, an input here. -/
def default_seo_metadata (story_text prompt_text timestamp : String) : SeoMetadata :=
  default_seo_metadata_core story_text (seo_char_setting prompt_text).1
    (seo_char_setting prompt_text).2 timestamp

/-! ## Helper lemmas -/

theorem length_filterMap_of_isSome {α β : Type} (f : α → Option β) :
    ∀ l : List α, (∀ x ∈ l, (f x).isSome) → (l.filterMap f).length = l.length := by
  intro l h
  induction l with
  | nil => simp
  | cons a t ih =>
    have ha := h a (by simp)
    rw [List.filterMap_cons]
    cases hfa : f a with
    | none => rw [hfa] at ha; simp at ha
    | some b =>
      simp only [List.length_cons]
      rw [ih (fun x hx => h x (by simp [hx]))]

theorem first_valid_segmentation_length :
    ∀ (ps : List RE) (t : List Char) (segs : List (List Char)),
      first_valid_segmentation ps t = some segs → 3 ≤ segs.length := by
  intro ps
  induction ps with
  | nil => intro t segs h; simp [first_valid_segmentation] at h
  | cons p ps ih =>
    intro t segs h
    unfold first_valid_segmentation at h
    dsimp only at h
    split at h
    · cases h; assumption
    · exact ih t segs h

theorem clean_story_segment_ne_nil {a s : List Char}
    (h : clean_story_segment a = some s) : s ≠ [] := by
  unfold clean_story_segment at h
  split at h
  · exact absurd h (by simp)
  · dsimp only at h
    split at h
    · exact absurd h (by simp)
    · rename_i hne
      cases h
      simpa [List.isEmpty_iff] using hne

/-- Appending a common prefix preserves the lexicographic order on
character lists (the order behind Python string comparison). -/
theorem list_lt_append_left : ∀ (p a b : List Char), a < b → p ++ a < p ++ b := by
  intro p
  induction p with
  | nil => intro a b h; simpa using h
  | cons x xs ih =>
    intro a b h
    exact List.Lex.cons (ih a b h)

/-- Within two digits plus the `.png` suffix, smaller sequence numbers
compare lexicographically smaller. -/
theorem two_digit_png_lt :
    ∀ j, j < 100 → ∀ i, i < j →
      (two_digit i).data ++ ".png".data < (two_digit j).data ++ ".png".data := by decide

theorem image_file_path_lt (temp_dir : String) {i j : Nat}
    (hj : j ≤ 99) (hij : i < j) :
    image_file_path temp_dir i < image_file_path temp_dir j := by
  rw [String.lt_iff_toList_lt]
  show (image_file_path temp_dir i).data < (image_file_path temp_dir j).data
  unfold image_file_path image_file_name
  simp only [String.data_append, List.append_assoc]
  exact list_lt_append_left temp_dir.data _ _
    (list_lt_append_left "/".data _ _
      (list_lt_append_left "image_".data _ _ (two_digit_png_lt j (by omega) i hij)))

/-- `retry_go` on an operation that always raises a plain exception: each
iteration adds exactly 1 to the failure counter, so the loop performs as
many calls as there is room below the budget and returns the sentinel. -/
theorem retry_go_generic {α : Type} (op : Nat → ApiOutcome α)
    (h : ∀ i, op i = ApiOutcome.err ApiError.unexpected) :
    ∀ (fuel : Nat) (maxF : Int) (calls : Nat) (failures : Int),
      (maxF - failures).toNat = fuel →
      retry_go op maxF calls failures = (none, calls + fuel) := by
  intro fuel
  induction fuel with
  | zero =>
    intro maxF calls failures hf
    rw [retry_go]
    simp [show ¬failures < maxF by omega]
  | succ n ih =>
    intro maxF calls failures hf
    rw [retry_go]
    rw [if_pos (show failures < maxF by omega)]
    rw [h calls]
    show retry_go op maxF (calls + 1) (failures + failure_weight ApiError.unexpected + 1) = _
    rw [show failure_weight ApiError.unexpected = 0 from rfl]
    rw [ih maxF (calls + 1) (failures + 0 + 1) (by omega)]
    simp [Prod.ext_iff]; omega

/-- `retry_go` on an operation that always raises a non-safety
`InvalidArgumentError`: each iteration adds 11 to the failure counter. -/
theorem retry_go_invalid {α : Type} (op : Nat → ApiOutcome α) (msg : String)
    (hmsg : containsSub "safety".data (lowerL msg.data) = false)
    (h : ∀ i, op i = ApiOutcome.err (ApiError.invalidArgument msg)) :
    ∀ (fuel : Nat) (maxF : Int) (calls : Nat) (failures : Int),
      (maxF - failures).toNat = fuel →
      retry_go op maxF calls failures = (none, calls + (fuel + 10) / 11) := by
  intro fuel
  induction fuel using Nat.strong_induction_on with
  | _ fuel ih =>
    intro maxF calls failures hf
    match hfuel : fuel with
    | 0 =>
      rw [retry_go]
      simp [show ¬failures < maxF by omega]
    | m + 1 =>
      rw [retry_go]
      rw [if_pos (show failures < maxF by omega)]
      rw [h calls]
      show retry_go op maxF (calls + 1)
        (failures + failure_weight (ApiError.invalidArgument msg) + 1) = _
      rw [show failure_weight (ApiError.invalidArgument msg) = 10 by
        simp [failure_weight, hmsg]]
      rw [ih (m + 1 - 11) (by omega) maxF (calls + 1) (failures + 10 + 1) (by omega)]
      simp [Prod.ext_iff]; omega

/-- `retry_story_go` performs at most `max_retries` attempts. -/
theorem retry_story_go_snd_le (gen : Nat → Option GenResult) :
    ∀ (fuel c m : Nat), m - c = fuel → c ≤ m →
      (retry_story_go gen m c).snd ≤ m := by
  intro fuel
  induction fuel with
  | zero =>
    intro c m hf hc
    rw [retry_story_go]
    simp [show ¬c < m by omega]
    omega
  | succ n ih =>
    intro c m hf hc
    rw [retry_story_go]
    rw [if_pos (show c < m by omega)]
    dsimp only
    split
    · simp; omega
    · exact ih (c + 1) m (by omega) (by omega)

/-- `retry_story_go` when every remaining attempt fails: the sentinel is
returned after exactly `max_retries` attempts. -/
theorem retry_story_go_all_fail (gen : Nat → Option GenResult) :
    ∀ (fuel c m : Nat), m - c = fuel → c ≤ m →
      (∀ k, c ≤ k → k < m → generation_successful (gen k) = false) →
      retry_story_go gen m c = (none, m) := by
  intro fuel
  induction fuel with
  | zero =>
    intro c m hf hc _
    rw [retry_story_go]
    simp [show ¬c < m by omega, show c = m by omega]
  | succ n ih =>
    intro c m hf hc hfail
    rw [retry_story_go]
    rw [if_pos (show c < m by omega)]
    dsimp only
    rw [hfail c (le_refl c) (by omega)]
    simp only [Bool.false_eq_true, if_false]
    exact ih (c + 1) m (by omega) (by omega) (fun k hk hk2 => hfail k (by omega) hk2)

/-- `retry_story_go` returns the first successful attempt's result. -/
theorem retry_story_go_first_success (gen : Nat → Option GenResult) :
    ∀ (fuel c m k : Nat), k - c = fuel → c ≤ k → k < m →
      (∀ j, c ≤ j → j < k → generation_successful (gen j) = false) →
      generation_successful (gen k) = true →
      retry_story_go gen m c = (gen k, k + 1) := by
  intro fuel
  induction fuel with
  | zero =>
    intro c m k hf hc hk hfail hsucc
    have : c = k := by omega
    subst this
    rw [retry_story_go]
    rw [if_pos (show c < m by omega)]
    dsimp only
    simp [hsucc]
  | succ n ih =>
    intro c m k hf hc hk hfail hsucc
    rw [retry_story_go]
    rw [if_pos (show c < m by omega)]
    dsimp only
    rw [hfail c (le_refl c) (by omega)]
    simp only [Bool.false_eq_true, if_false]
    exact ih (c + 1) m k (by omega) (by omega) hk
      (fun j hj hj2 => hfail j (by omega) hj2) hsucc

/-! ## Claims -/

/-- C1 counterexample: on the input "1. a\n2. b\n3. c" a segment-marker
pattern splits the text into three non-empty pieces, yet segment mode
returns fewer than three segments - the cleanup filter drops every piece
(each has fewer than five words). -/
theorem c1_counterexample :
    (first_valid_segmentation segment_patterns (stripL ("1. a\n2. b\n3. c").data)).isSome = true
    ∧ (story_segments "1. a\n2. b\n3. c").length < 3 := by decide

/-- C1 (amended): if one of the three segment-marker patterns yields at
least three non-empty pieces and, additionally, every piece of the chosen
segmentation passes the final cleanup filter, then
`collect_complete_story(raw, return_segments=True)` returns at least three
cleaned segments. -/
theorem c1_markers_give_three_segments (raw : String) (segs : List (List Char))
    (h : first_valid_segmentation segment_patterns (stripL raw.data) = some segs)
    (hall : ∀ s ∈ segs, (clean_story_segment s).isSome) :
    3 ≤ (story_segments raw).length := by
  have h3 := first_valid_segmentation_length segment_patterns (stripL raw.data) segs h
  simp only [story_segments, story_segments_of, h, Option.getD_some, List.length_map]
  rw [length_filterMap_of_isSome clean_story_segment segs hall]
  exact h3

/-- C1 witness: a marker-segmented input whose pieces all survive the
cleanup filter. -/
theorem c1_markers_give_three_segments_witness :
    3 ≤ (story_segments "1. a a a a a\n2. b b b b b\n3. c c c c c").length :=
  c1_markers_give_three_segments "1. a a a a a\n2. b b b b b\n3. c c c c c"
    ["a a a a a".data, "b b b b b".data, "c c c c c".data] (by decide) (by decide)

/-- Under the intended (documented) handler semantics, an operation that
raises a generic (catch-all) exception on every invocation would be
invoked exactly `max_consecutive_failures` times, after which the wrapper
would return the absent sentinel - this is the behaviour claimed by the
docstring of `retry_api_call` and by the spec. -/
theorem retry_exhausts_budget_intended {α : Type} (op : Nat → ApiOutcome α) (n : Nat)
    (h : ∀ i, op i = ApiOutcome.err ApiError.unexpected) :
    retry_api_call op (n : Int) = none ∧ retry_api_call_count op (n : Int) = n := by
  unfold retry_api_call retry_api_call_count
  rw [retry_go_generic op h n (n : Int) 0 0 (by omega)]
  exact ⟨rfl, by omega⟩

/-- Instance of `retry_exhausts_budget_intended` at budget 3. -/
theorem retry_exhausts_budget_intended_example :
    retry_api_call (fun _ => (ApiOutcome.err ApiError.unexpected : ApiOutcome Nat))
        ((3 : Nat) : Int) = none ∧
    retry_api_call_count (fun _ => (ApiOutcome.err ApiError.unexpected : ApiOutcome Nat))
        ((3 : Nat) : Int) = 3 :=
  retry_exhausts_budget_intended
    (fun _ => (ApiOutcome.err ApiError.unexpected : ApiOutcome Nat)) 3 (fun _ => rfl)

/-- C2 (code bug): with the configured budget of 1000 and an operation that
raises a generic exception on every invocation, the code as written invokes
the operation exactly once and lets a `NameError` escape (the first except
clause names the never-imported `custom_genai`), instead of invoking it
1000 times and returning the sentinel as its docstring and the claim
state. -/
theorem c2_name_error_on_first_failure :
    retry_api_call_actual
        (fun _ => (ApiOutcome.err ApiError.unexpected : ApiOutcome Nat))
        ((1000 : Nat) : Int)
      = (PyResult.raised "NameError", 1) := rfl

/-- C3 counterexample: "hello" has no marker segmentation and exactly one
blank-line paragraph, yet segment mode returns fewer segments than that
paragraph count (the cleanup filter drops the single short paragraph). -/
theorem c3_counterexample :
    first_valid_segmentation segment_patterns (stripL ("hello").data) = none
    ∧ (split_and_strip blank_line_pattern (stripL ("hello").data)).length = 1
    ∧ (story_segments "hello").length
        < (split_and_strip blank_line_pattern (stripL ("hello").data)).length := by decide

/-- C3 (amended): when no segment-marker pattern yields at least three
pieces, segment mode falls back to blank-line paragraph splitting, and the
cleaned result never has more (rather than never fewer) segments than the
number of non-empty blank-line-separated paragraphs. -/
theorem c3_paragraph_upper_bound (raw : String)
    (h : first_valid_segmentation segment_patterns (stripL raw.data) = none) :
    (story_segments raw).length
      ≤ (split_and_strip blank_line_pattern (stripL raw.data)).length := by
  simp only [story_segments, story_segments_of, h, Option.getD_none, List.length_map]
  exact List.length_filterMap_le _ _

/-- C3 witness. -/
theorem c3_witness :
    (story_segments "hello").length
      ≤ (split_and_strip blank_line_pattern (stripL ("hello").data)).length :=
  c3_paragraph_upper_bound "hello" (by decide)

/-- C4: `retry_story_generation` performs at most 5 attempts; a result with
fewer than `MIN_STORY_SEGMENTS` cleaned segments or images counts as a
failure; if every attempt fails the whole budget is used and the sentinel
is returned; otherwise the first successful attempt's result (a fresh
re-run of the entire generation) is returned. -/
theorem c4_retry_story_generation_contract (gen : Nat → Option GenResult) :
    retry_story_attempts gen ≤ 5 ∧
    (∀ res : GenResult,
      (story_segments res.story_text).length < MIN_STORY_SEGMENTS ∨
        res.image_files.length < MIN_STORY_SEGMENTS →
      generation_successful (some res) = false) ∧
    ((∀ k, k < 5 → generation_successful (gen k) = false) →
      retry_story_generation gen = none ∧ retry_story_attempts gen = 5) ∧
    (∀ k, k < 5 → (∀ j, j < k → generation_successful (gen j) = false) →
      generation_successful (gen k) = true → retry_story_generation gen = gen k) := by
  refine ⟨?_, ?_, ?_, ?_⟩
  · exact retry_story_go_snd_le gen 5 0 5 rfl (by omega)
  · intro res h
    unfold generation_successful
    dsimp only
    rcases h with h | h
    · rw [decide_eq_false (by omega : ¬MIN_STORY_SEGMENTS ≤ (story_segments res.story_text).length)]
      rfl
    · rw [decide_eq_false (by omega : ¬MIN_STORY_SEGMENTS ≤ res.image_files.length)]
      exact Bool.and_false _
  · intro hall
    have := retry_story_go_all_fail gen 5 0 5 rfl (by omega) (fun k _ hk2 => hall k hk2)
    unfold retry_story_generation retry_story_attempts
    rw [this]
    exact ⟨rfl, rfl⟩
  · intro k hk hprev hsucc
    have := retry_story_go_first_success gen k 0 5 k rfl (by omega) hk
      (fun j _ hj2 => hprev j hj2) hsucc
    unfold retry_story_generation
    rw [this]

/-- C4 witness: a generator whose every attempt fails makes the
orchestrator return the sentinel. -/
theorem c4_witness : retry_story_generation (fun _ => none) = none :=
  ((c4_retry_story_generation_contract (fun _ => none)).2.2.1 (fun _ _ => rfl)).1

/-- Under the intended handler semantics, an operation that on every
invocation raises `InvalidArgumentError` with a non-safety message would
exhaust the budget in ceil(n/11) invocations (the counter advances by 11
per attempt), strictly fewer than the budget whenever the budget is at
least 2, before the sentinel is returned. -/
theorem retry_invalid_fast_exhaustion_intended {α : Type} (op : Nat → ApiOutcome α)
    (msg : String) (n : Nat)
    (hmsg : containsSub "safety".data (lowerL msg.data) = false)
    (h : ∀ i, op i = ApiOutcome.err (ApiError.invalidArgument msg)) :
    retry_api_call op (n : Int) = none ∧
    retry_api_call_count op (n : Int) = (n + 10) / 11 ∧
    (2 ≤ n → retry_api_call_count op (n : Int) < n) := by
  unfold retry_api_call retry_api_call_count
  rw [retry_go_invalid op msg hmsg h n (n : Int) 0 0 (by omega)]
  refine ⟨rfl, by omega, fun h2 => by omega⟩

/-- Instance of `retry_invalid_fast_exhaustion_intended` at the configured
budget of 1000: 91 invocations. -/
theorem retry_invalid_fast_exhaustion_intended_example :
    retry_api_call (fun _ => (ApiOutcome.err (ApiError.invalidArgument "bad") : ApiOutcome Nat))
        ((1000 : Nat) : Int) = none ∧
    retry_api_call_count (fun _ => (ApiOutcome.err (ApiError.invalidArgument "bad") : ApiOutcome Nat))
        ((1000 : Nat) : Int) < 1000 := by
  have h := retry_invalid_fast_exhaustion_intended
    (fun _ => (ApiOutcome.err (ApiError.invalidArgument "bad") : ApiOutcome Nat))
    "bad" 1000 (by decide) (fun _ => rfl)
  exact ⟨h.1, h.2.2 (by omega)⟩

/-- C5 (code bug): with the configured budget of 1000 and an operation that
always raises a non-safety `InvalidArgumentError`, the code as written
never reaches the `failures += 10` weighting: evaluating the first except
clause raises `NameError` (the name `custom_genai` is never imported), so
the operation is invoked exactly once and the exception escapes, rather
than the budget being exhausted in fewer than 1000 weighted attempts. -/
theorem c5_name_error_before_weighting :
    retry_api_call_actual
        (fun _ => (ApiOutcome.err (ApiError.invalidArgument "bad") : ApiOutcome Nat))
        ((1000 : Nat) : Int)
      = (PyResult.raised "NameError", 1) := rfl

/-- C6: the default metadata generator always returns a title of at most 60
characters and a non-empty tag list. -/
theorem c6_default_seo_metadata_bounds (story_text prompt_text timestamp : String) :
    (default_seo_metadata story_text prompt_text timestamp).title.length ≤ 60 ∧
    (default_seo_metadata story_text prompt_text timestamp).tags ≠ [] := by
  unfold default_seo_metadata default_seo_metadata_core
  dsimp only
  constructor
  · show (List.take 60 _).length ≤ 60
    simp only [List.length_take]
    exact min_le_left _ _
  · simp

/-- C7: each trim duration written to the FFmpeg filter script equals
`audio_duration / total_images`, and the trim durations of the
`total_images` entries sum to the audio duration (arithmetic modelled
exactly; the source computes in Python floats). -/
theorem c7_trim_durations_sum (audio_duration : ℚ) (total_images : Nat)
    (h : total_images ≠ 0) :
    (∀ e ∈ filter_script_entries audio_duration total_images,
      e.trim_duration = audio_duration / total_images) ∧
    ((filter_script_entries audio_duration total_images).map
        FilterEntry.trim_duration).sum = audio_duration := by
  have hcast : (total_images : ℚ) ≠ 0 := Nat.cast_ne_zero.mpr h
  constructor
  · intro e he
    simp only [filter_script_entries, List.mem_map] at he
    obtain ⟨i, _, rfl⟩ := he
    rfl
  · simp only [filter_script_entries, List.map_map]
    have hconst : (FilterEntry.trim_duration ∘ fun i : Nat =>
        FilterEntry.mk ((i : ℚ) * time_per_image audio_duration total_images)
          (time_per_image audio_duration total_images)
          (time_per_image audio_duration total_images - 1/2)) =
        fun _ : Nat => time_per_image audio_duration total_images := rfl
    rw [hconst, List.map_const', List.length_range, List.sum_replicate]
    show (total_images : ℕ) • (audio_duration / (total_images : ℚ)) = audio_duration
    rw [nsmul_eq_mul, mul_comm, div_mul_cancel₀ audio_duration hcast]

/-- C7 witness: four images over a 12-second narration. -/
theorem c7_witness :
    ((filter_script_entries 12 4).map FilterEntry.trim_duration).sum = 12 :=
  (c7_trim_durations_sum 12 4 (by decide)).2

/-- C8: the zero-padded two-digit image file names make lexicographic
string order coincide with the generation sequence order for up to 99
images, so `sorted(image_files)` keeps the generation order. -/
theorem c8_image_files_lexicographically_sorted (temp_dir : String) (k : Nat)
    (hk : k ≤ 99) :
    List.Pairwise (fun a b : String => a < b) (generated_image_files temp_dir k) := by
  unfold generated_image_files
  rw [List.pairwise_map]
  refine (List.pairwise_lt_range k).imp_of_mem ?_
  intro a b _ hb hab
  have hb2 := List.mem_range.mp hb
  exact image_file_path_lt temp_dir (by omega) (by omega)

/-- C8 witness. -/
theorem c8_witness :
    List.Pairwise (fun a b : String => a < b) (generated_image_files "/tmp/story" 3) :=
  c8_image_files_lexicographically_sorted "/tmp/story" 3 (by omega)

/-- C9 counterexample: removing the bracket annotation from
"one two three four five ``[q]`" glues the surrounding backticks into a
segment that contains "```", refuting the no-backtick part of the claim. -/
theorem c9_counterexample :
    story_segments "one two three four five ``[q]`" = ["one two three four five ```"] ∧
    containsSub "```".data ("one two three four five ```").data = true := by decide

/-- C9 (amended): every element returned in segment mode is a non-empty
string (elements may still contain "```" when bracket removal glues
backticks together); segment mode returns the cleaned list directly, never
the too-short fallback to the original text, so the result may be empty
even for non-empty input (e.g. "hello"). -/
theorem c9_segments_invariant :
    (∀ raw : String, (∀ s ∈ story_segments raw, s ≠ "") ∧
      collect_complete_story raw true = StoryOutput.segments (story_segments raw)) ∧
    (("hello" : String) ≠ "" ∧ story_segments "hello" = []) := by
  constructor
  · intro raw
    constructor
    · intro s hs
      simp only [story_segments, List.mem_map] at hs
      obtain ⟨l, hl, rfl⟩ := hs
      simp only [story_segments_of, List.mem_filterMap] at hl
      obtain ⟨a, _, ha⟩ := hl
      have hne := clean_story_segment_ne_nil ha
      intro hcontra
      apply hne
      have hdata : (⟨l⟩ : String).data = ("" : String).data := by rw [hcontra]
      simpa using hdata
    · rfl
  · exact ⟨by decide, by decide⟩

/-- C9 witness: a concrete kept segment is non-empty. -/
theorem c9_witness : ("a a a a a" : String) ≠ "" :=
  (c9_segments_invariant.1 "a a a a a").1 "a a a a a" (by decide)

/-- C10: a non-positive attempt budget makes the loop guard fail at once,
so `retry_api_call` returns the sentinel without invoking the operation -
a path on which the intended model and the actual behaviour agree (no
exception is ever raised, so the broken except clauses are never
evaluated). -/
theorem c10_nonpositive_budget {α : Type} (op : Nat → ApiOutcome α) (maxF : Int)
    (h : maxF ≤ 0) :
    retry_api_call op maxF = none ∧ retry_api_call_count op maxF = 0 ∧
    retry_api_call_actual op maxF = (PyResult.ret none, 0) := by
  refine ⟨?_, ?_, ?_⟩
  · unfold retry_api_call
    rw [retry_go]
    simp [show ¬(0 : Int) < maxF by omega]
  · unfold retry_api_call_count
    rw [retry_go]
    simp [show ¬(0 : Int) < maxF by omega]
  · unfold retry_api_call_actual
    simp [show ¬(0 : Int) < maxF by omega]

/-- C10 witness: a budget of -3 yields the sentinel and zero invocations
even for an operation that would succeed. -/
theorem c10_witness :
    retry_api_call (fun _ => (ApiOutcome.ok 7 : ApiOutcome Nat)) (-3) = none ∧
    retry_api_call_count (fun _ => (ApiOutcome.ok 7 : ApiOutcome Nat)) (-3) = 0 ∧
    retry_api_call_actual (fun _ => (ApiOutcome.ok 7 : ApiOutcome Nat)) (-3)
      = (PyResult.ret none, 0) :=
  c10_nonpositive_budget (fun _ => (ApiOutcome.ok 7 : ApiOutcome Nat)) (-3) (by omega)

end KidsVideo
